import Mathlib

set_option linter.unusedVariables false

/-!
Shallow embedding of the McLevy game session controller (src/App.tsx, first
module version) and its Case Generator boundary (src/services/geminiService.ts).
Asynchronous requests to the generative service are modelled by passing the
settled outcome of each request (an `Except String _` value) into the pure
state-transition function that the corresponding React handler denotes.
-/

namespace McLevy

/-- Game screens, from the GameState enum in types.ts. -/
inductive GameState where
  | START
  | BRIEFING
  | INVESTIGATING
  | ACCUSING
  | RESOLVED
deriving DecidableEq, Repr

/-- Difficulty levels, from the Difficulty union type in types.ts. -/
inductive Difficulty where
  | Easy
  | Medium
  | Hard
deriving DecidableEq, Repr

/-- Suspect record, from the Suspect interface in types.ts. -/
structure Suspect where
  name : String
  motive : String
  description : String
  statement : String
  portraitUrl : Option String := none
deriving DecidableEq, Repr

/-- Case record, from the Case interface in types.ts. -/
structure Case where
  title : String
  victim : String
  location : String
  summary : String
  suspects : List Suspect
  culprit : String
deriving DecidableEq, Repr

/-- Resolution record, from the Resolution interface in types.ts. -/
structure Resolution where
  isCorrect : Bool
  resolutionText : String
deriving DecidableEq, Repr

/-- Timeline event kind, from the type field of the TimelineEvent interface. -/
inductive EventType where
  | EVENT
  | CLUE
deriving DecidableEq, Repr

/-- Evidence-log entry, from the TimelineEvent interface in types.ts. -/
structure TimelineEvent where
  id : Nat
  type : EventType
  source : String
  text : String
deriving DecidableEq, Repr

/-- Session state: the React state hooks of the App component in src/App.tsx
(backgroundUrl, a cached presentation asset, is omitted). -/
structure SessionState where
  gameState : GameState
  difficulty : Option Difficulty
  currentCase : Option Case
  timeline : List TimelineEvent
  activeEventId : Option Nat
  currentLog : String
  currentSpeaker : Option String
  isLoading : Bool
  loadingMessage : String
  resolution : Option Resolution
  error : Option String
  investigationInput : String
deriving DecidableEq, Repr

/-- Initial value of the currentLog hook in src/App.tsx. -/
def defaultLog : String :=
  "The gas lamps of Edinburgh hiss in the haar. Another soul has met a grim end."

/-- Initial session state: the useState initial values in src/App.tsx. -/
def initialState : SessionState where
  gameState := .START
  difficulty := none
  currentCase := none
  timeline := []
  activeEventId := none
  currentLog := defaultLog
  currentSpeaker := none
  isLoading := false
  loadingMessage := ""
  resolution := none
  error := none
  investigationInput := ""

/-- Error message thrown by the catch block of generateNewCase in
src/services/geminiService.ts; it replaces both the JSON parse error and the
suspect-count error raised inside the try block. -/
def generationErrorMsg : String :=
  "The Crown\x27s witnesses are speakin\x27 in tongues. Couldna generate a proper case."

/-- Validation stage of generateNewCase in src/services/geminiService.ts.
The argument is the outcome of JSON-parsing the model response text
(none models a parse failure). A parsed case with a suspect count other
than 3 raises inside the try block; both failures are caught and replaced
by `generationErrorMsg`. -/
def generateNewCase (parsed : Option Case) : Except String Case :=
  match parsed with
  | none => .error generationErrorMsg
  | some newCase =>
      if newCase.suspects.length ≠ 3 then .error generationErrorMsg
      else .ok newCase

/-- Result shape of investigateAction in src/services/geminiService.ts. -/
structure InvestigationResult where
  description : String
  clue : String
  speaker : Option String := none
deriving DecidableEq, Repr

/-- Result shape of getInnisHint in src/services/geminiService.ts. -/
structure HintResult where
  hint : String
deriving DecidableEq, Repr

/-- resolveCase from src/services/geminiService.ts: `isCorrect` is computed
from the accused name and the culprit before the narrative request is made;
`narrative` is the settled outcome of the generateContent call (the function
has no try/catch, so a rejection propagates to the caller). -/
def resolveCase (caseDetails : Case) (accusedSuspectName : String)
    (narrative : Except String String) : Except String Resolution :=
  let isCorrect := accusedSuspectName == caseDetails.culprit
  match narrative with
  | .error e => .error e
  | .ok text => .ok { isCorrect := isCorrect, resolutionText := text }

/-- Portrait enrichment loop of startNewCase in src/App.tsx: each suspect is
mapped through generateSuspectPortrait (modelled by the oracle `pfn` from the
description to the settled outcome) and receives a portraitUrl; Promise.all
rejects when any single portrait request fails. -/
def enrichSuspects (pfn : String → Except String String) :
    List Suspect → Except String (List Suspect)
  | [] => .ok []
  | suspect :: rest =>
      match pfn suspect.description, enrichSuspects pfn rest with
      | .ok url, .ok rest2 => .ok ({ suspect with portraitUrl := some url } :: rest2)
      | .error e, _ => .error e
      | .ok _, .error e => .error e

/-- handleApiError from src/App.tsx: records the message and clears the
loading flag. -/
def handleApiError (message : String) (s : SessionState) : SessionState :=
  { s with error := some message, isLoading := false }

/-- startNewCase from src/App.tsx. `rCase` is the settled outcome of the
generateNewCase request, `pfn` the portrait oracle. The difficulty is stored
and the loading flag raised before the request; a failure of either the case
request or a portrait request lands in the catch block (handleApiError),
whose effect absorbs the final setIsLoading(false). -/
def startNewCase (s : SessionState) (selectedDifficulty : Difficulty)
    (rCase : Except String Case) (pfn : String → Except String String) :
    SessionState :=
  let s0 := { s with
    difficulty := some selectedDifficulty,
    loadingMessage := "Consultin\x27 wi\x27 the powers that be...",
    isLoading := true,
    error := none,
    resolution := none }
  match rCase with
  | .error e => handleApiError e s0
  | .ok newCase =>
      let s1 := { s0 with
        currentCase := some newCase,
        timeline := [{ id := 1, type := .EVENT, source := "Case Briefing",
                       text := newCase.summary }],
        activeEventId := some 1,
        loadingMessage := "Sketchin\x27 the persons of interest..." }
      match enrichSuspects pfn newCase.suspects with
      | .error e => handleApiError e s1
      | .ok suspectsWithPortraits =>
          { s1 with
            currentCase := some { newCase with suspects := suspectsWithPortraits },
            currentLog := newCase.summary,
            currentSpeaker := none,
            gameState := .INVESTIGATING,
            isLoading := false }

/-- JavaScript truthiness test applied to result.speaker by
handleInvestigation in src/App.tsx: an absent or empty string is falsy. -/
def jsTruthySpeaker : Option String → Option String
  | some sp => if sp = "" then none else some sp
  | none => none

/-- handleInvestigation from src/App.tsx. Returns early when there is no
current case or no difficulty; otherwise raises the loading flag, issues the
investigateAction request (settled outcome `r`), and on success appends one
CLUE timeline event sourced from the Investigation. -/
def handleInvestigation (s : SessionState) (action : String)
    (r : Except String InvestigationResult) : SessionState :=
  match s.currentCase, s.difficulty with
  | some _, some _ =>
      let s0 := { s with
        loadingMessage := "Poundin\x27 the cobblestones...",
        isLoading := true,
        error := none }
      match r with
      | .error e => handleApiError e s0
      | .ok result =>
          let newEvent : TimelineEvent :=
            { id := s0.timeline.length + 1, type := .CLUE,
              source := "Investigation", text := result.clue }
          { s0 with
            currentLog := result.description,
            currentSpeaker := jsTruthySpeaker result.speaker,
            timeline := s0.timeline ++ [newEvent],
            activeEventId := some newEvent.id,
            isLoading := false }
  | _, _ => s

/-- handleInvestigationSubmit from src/App.tsx: only acts when the trimmed
input is non-empty and no request is outstanding, then runs
handleInvestigation on the trimmed input and clears the input field. -/
def handleInvestigationSubmit (s : SessionState)
    (r : Except String InvestigationResult) : SessionState :=
  if s.investigationInput.trim ≠ "" ∧ s.isLoading = false then
    let s1 := handleInvestigation s s.investigationInput.trim r
    { s1 with investigationInput := "" }
  else s

/-- handleAskInnis from src/App.tsx. Returns early when there is no current
case or no difficulty; on success appends one CLUE timeline event sourced
from Innis. -/
def handleAskInnis (s : SessionState) (r : Except String HintResult) :
    SessionState :=
  match s.currentCase, s.difficulty with
  | some _, some _ =>
      let s0 := { s with
        loadingMessage := "The wee dog is sniffin\x27 the air...",
        isLoading := true,
        error := none }
      match r with
      | .error e => handleApiError e s0
      | .ok result =>
          let hintText :=
            "Innis gives a low growl and nudges your hand, seeming to say: \""
              ++ result.hint ++ "\""
          let newEvent : TimelineEvent :=
            { id := s0.timeline.length + 1, type := .CLUE,
              source := "Innis\x27s Nose", text := result.hint }
          { s0 with
            currentLog := hintText,
            currentSpeaker := none,
            timeline := s0.timeline ++ [newEvent],
            activeEventId := some newEvent.id,
            isLoading := false }
  | _, _ => s

/-- The askCompanion intent as wired in src/App.tsx: the InnisCompanion
button (src/components/InnisCompanion.tsx) is rendered with
disabled set to isLoading, so a click reaches handleAskInnis only when no
request is outstanding. -/
def askInnisClick (s : SessionState) (r : Except String HintResult) :
    SessionState :=
  if s.isLoading then s else handleAskInnis s r

/-- handleAccuse from src/App.tsx: returns early only when there is no
current case (there is no busy check); calls resolveCase with the current
case and the accused suspect name and on success stores the resolution and
moves to RESOLVED. -/
def handleAccuse (s : SessionState) (suspect : Suspect)
    (narrative : Except String String) : SessionState :=
  match s.currentCase with
  | none => s
  | some currentCase =>
      let s0 := { s with
        loadingMessage := "The net draws tight...",
        isLoading := true,
        error := none }
      match resolveCase currentCase suspect.name narrative with
      | .error e => handleApiError e s0
      | .ok result =>
          { s0 with
            resolution := some result,
            gameState := .RESOLVED,
            isLoading := false }

/-- cluesFound from renderGameState in src/App.tsx: the number of timeline
entries whose type is CLUE. -/
def cluesFound (s : SessionState) : Nat :=
  (s.timeline.filter (fun e => e.type == EventType.CLUE)).length

/-- cluesNeeded from renderGameState in src/App.tsx: the difficulty lookup
table with default 2 when the difficulty is unset. -/
def cluesNeeded : Option Difficulty → Nat
  | some .Easy => 1
  | some .Medium => 2
  | some .Hard => 3
  | none => 2

/-- canAccuse from renderGameState in src/App.tsx. -/
def canAccuse (s : SessionState) : Bool :=
  cluesNeeded s.difficulty ≤ cluesFound s

/-- handleOpenAccusationModal from src/App.tsx: moves to ACCUSING. -/
def handleOpenAccusationModal (s : SessionState) : SessionState :=
  { s with gameState := .ACCUSING }

/-- The openAccusation intent as wired in renderGameState in src/App.tsx:
the accusation button is rendered with disabled set to
(isLoading or not canAccuse), so a click reaches handleOpenAccusationModal
only when eligible. -/
def openAccusation (s : SessionState) : SessionState :=
  if s.isLoading || !(canAccuse s) then s else handleOpenAccusationModal s

/-- The cancelAccusation intent: the onClose handler of the accusation Modal
in src/App.tsx sets the game state back to INVESTIGATING. -/
def cancelAccusation (s : SessionState) : SessionState :=
  { s with gameState := .INVESTIGATING }

/-- resetGame from src/App.tsx. -/
def resetGame (s : SessionState) : SessionState :=
  { s with
    gameState := .START,
    currentCase := none,
    timeline := [],
    resolution := none,
    error := none,
    difficulty := none,
    currentLog := defaultLog,
    currentSpeaker := none }

/-- Evidence entries of kind investigation-clue or companion-hint: CLUE
entries sourced from the Investigation or from Innis. -/
def isClueOrHint (e : TimelineEvent) : Bool :=
  e.type == EventType.CLUE &&
    (e.source == "Investigation" || e.source == "Innis\x27s Nose")

/-- Number of investigation-clue and companion-hint entries in the log. -/
def clueHintCount (s : SessionState) : Nat :=
  (s.timeline.filter isClueOrHint).length

/-- Session states reachable from the initial state through the controller
operations. The begin step draws its case from generateNewCase applied to an
arbitrary parse outcome; all request outcomes are arbitrary. -/
inductive Reachable : SessionState → Prop where
  | init : Reachable initialState
  | beginCase : ∀ s d parsed pfn, Reachable s →
      Reachable (startNewCase s d (generateNewCase parsed) pfn)
  | investigate : ∀ s r, Reachable s → Reachable (handleInvestigationSubmit s r)
  | askInnis : ∀ s r, Reachable s → Reachable (askInnisClick s r)
  | openAcc : ∀ s, Reachable s → Reachable (openAccusation s)
  | cancelAcc : ∀ s, Reachable s → Reachable (cancelAccusation s)
  | accuse : ∀ s suspect narrative, Reachable s →
      Reachable (handleAccuse s suspect narrative)
  | reset : ∀ s, Reachable s → Reachable (resetGame s)

/-- Every CLUE entry of the log is sourced from the Investigation or from
Innis: the only two writers of CLUE entries in src/App.tsx. -/
def timelineOk (s : SessionState) : Prop :=
  ∀ e ∈ s.timeline, e.type = EventType.CLUE →
    e.source = "Investigation" ∨ e.source = "Innis\x27s Nose"

/-- The active case, when present, has exactly three suspects. -/
def caseOk (s : SessionState) : Prop :=
  ∀ c, s.currentCase = some c → c.suspects.length = 3

/-- Structural session invariant maintained by the controller. -/
def SessionInv (s : SessionState) : Prop := timelineOk s ∧ caseOk s

theorem enrichSuspects_length (pfn : String → Except String String) :
    ∀ l l2, enrichSuspects pfn l = .ok l2 → l2.length = l.length := by
  intro l
  induction l with
  | nil =>
      intro l2 h
      simp only [enrichSuspects, Except.ok.injEq] at h
      simp [← h]
  | cons a rest ih =>
      intro l2 h
      simp only [enrichSuspects] at h
      split at h
      · rename_i url rest2 hp hr
        cases h
        simp [ih _ hr]
      · cases h
      · cases h

theorem inv_startNewCase (s : SessionState) (d : Difficulty)
    (parsed : Option Case) (pfn : String → Except String String)
    (h : SessionInv s) :
    SessionInv (startNewCase s d (generateNewCase parsed) pfn) := by
  obtain ⟨ht, hcase⟩ := h
  unfold startNewCase generateNewCase
  cases parsed with
  | none =>
      exact ⟨fun e he htype => ht e he htype, fun c hc2 => hcase c hc2⟩
  | some newCase =>
      by_cases hlen : newCase.suspects.length ≠ 3
      · simp only [if_pos hlen]
        exact ⟨fun e he htype => ht e he htype, fun c hc2 => hcase c hc2⟩
      · simp only [if_neg hlen]
        push_neg at hlen
        cases hp : enrichSuspects pfn newCase.suspects with
        | error e =>
            simp only [hp, handleApiError]
            constructor
            · intro e2 he2 htype
              simp only [timelineOk, List.mem_singleton] at he2 ⊢
              subst he2
              simp at htype
            · intro c hc2
              simp only [Option.some.injEq] at hc2
              subst hc2
              exact hlen
        | ok suspectsWithPortraits =>
            simp only [hp]
            constructor
            · intro e2 he2 htype
              simp only [List.mem_singleton] at he2
              subst he2
              simp at htype
            · intro c hc2
              simp only [Option.some.injEq] at hc2
              subst hc2
              simpa [enrichSuspects_length pfn _ _ hp] using hlen

theorem inv_handleInvestigation (s : SessionState) (action : String)
    (r : Except String InvestigationResult) (h : SessionInv s) :
    SessionInv (handleInvestigation s action r) := by
  obtain ⟨ht, hcase⟩ := h
  unfold handleInvestigation
  split
  · rename_i c0 d0 hc0 hd0
    cases r with
    | error e =>
        exact ⟨fun e2 he2 htype => ht e2 he2 htype, fun c hc2 => hcase c hc2⟩
    | ok result =>
        constructor
        · intro e2 he2 htype
          simp only [List.mem_append, List.mem_singleton] at he2
          cases he2 with
          | inl hmem => exact ht e2 hmem htype
          | inr heq => subst heq; left; rfl
        · intro c hc2
          exact hcase c hc2
  · exact ⟨ht, hcase⟩

theorem inv_handleInvestigationSubmit (s : SessionState)
    (r : Except String InvestigationResult) (h : SessionInv s) :
    SessionInv (handleInvestigationSubmit s r) := by
  unfold handleInvestigationSubmit
  split
  · obtain ⟨ht, hcase⟩ :=
      inv_handleInvestigation s s.investigationInput.trim r h
    exact ⟨fun e he htype => ht e he htype, fun c hc2 => hcase c hc2⟩
  · exact h

theorem inv_handleAskInnis (s : SessionState) (r : Except String HintResult)
    (h : SessionInv s) : SessionInv (handleAskInnis s r) := by
  obtain ⟨ht, hcase⟩ := h
  unfold handleAskInnis
  split
  · rename_i c0 d0 hc0 hd0
    cases r with
    | error e =>
        exact ⟨fun e2 he2 htype => ht e2 he2 htype, fun c hc2 => hcase c hc2⟩
    | ok result =>
        constructor
        · intro e2 he2 htype
          simp only [List.mem_append, List.mem_singleton] at he2
          cases he2 with
          | inl hmem => exact ht e2 hmem htype
          | inr heq => subst heq; right; rfl
        · intro c hc2
          exact hcase c hc2
  · exact ⟨ht, hcase⟩

theorem inv_askInnisClick (s : SessionState) (r : Except String HintResult)
    (h : SessionInv s) : SessionInv (askInnisClick s r) := by
  unfold askInnisClick
  split
  · exact h
  · exact inv_handleAskInnis s r h

theorem inv_handleAccuse (s : SessionState) (suspect : Suspect)
    (narrative : Except String String) (h : SessionInv s) :
    SessionInv (handleAccuse s suspect narrative) := by
  obtain ⟨ht, hcase⟩ := h
  unfold handleAccuse
  split
  · exact ⟨ht, hcase⟩
  · rename_i currentCase hc0
    split
    · exact ⟨fun e2 he2 htype => ht e2 he2 htype, fun c hc2 => hcase c hc2⟩
    · exact ⟨fun e2 he2 htype => ht e2 he2 htype, fun c hc2 => hcase c hc2⟩

theorem inv_openAccusation (s : SessionState) (h : SessionInv s) :
    SessionInv (openAccusation s) := by
  unfold openAccusation handleOpenAccusationModal
  split
  · exact h
  · exact ⟨fun e he htype => h.1 e he htype, fun c hc2 => h.2 c hc2⟩

theorem inv_cancelAccusation (s : SessionState) (h : SessionInv s) :
    SessionInv (cancelAccusation s) := by
  unfold cancelAccusation
  exact ⟨fun e he htype => h.1 e he htype, fun c hc2 => h.2 c hc2⟩

theorem inv_resetGame (s : SessionState) (h : SessionInv s) :
    SessionInv (resetGame s) := by
  unfold resetGame
  constructor
  · intro e he htype
    simp [timelineOk] at he
  · intro c hc2
    simp at hc2

theorem reachable_invariant {s : SessionState} (h : Reachable s) :
    SessionInv s := by
  induction h with
  | init =>
      constructor
      · intro e he htype
        simp [initialState] at he
      · intro c hc2
        simp [initialState] at hc2
  | beginCase s d parsed pfn _ ih => exact inv_startNewCase s d parsed pfn ih
  | investigate s r _ ih => exact inv_handleInvestigationSubmit s r ih
  | askInnis s r _ ih => exact inv_askInnisClick s r ih
  | openAcc s _ ih => exact inv_openAccusation s ih
  | cancelAcc s _ ih => exact inv_cancelAccusation s ih
  | accuse s suspect narrative _ ih => exact inv_handleAccuse s suspect narrative ih
  | reset s _ ih => exact inv_resetGame s ih

theorem cluesFound_eq_clueHintCount (s : SessionState) (h : timelineOk s) :
    cluesFound s = clueHintCount s := by
  unfold cluesFound clueHintCount
  congr 1
  apply List.filter_congr
  intro e he
  unfold isClueOrHint
  by_cases htype : e.type = EventType.CLUE
  · rcases h e he htype with h1 | h1 <;> simp [htype, h1]
  · simp [htype]

/-- Demo suspect used in concrete witness states. -/
def jeanBrash : Suspect :=
  { name := "Jean Brash", motive := "Jealousy",
    description := "A canny madam of the Just Land",
    statement := "I was at the Just Land all nicht." }

/-- Demo suspect used in concrete witness states. -/
def aileanMhor : Suspect :=
  { name := "Ailean Mhor", motive := "An old debt",
    description := "A brooding docker",
    statement := "I never left the docks." }

/-- Demo suspect used in concrete witness states. -/
def hamishDunbar : Suspect :=
  { name := "Hamish Dunbar", motive := "The inheritance",
    description := "A nervous clerk",
    statement := "I was balancin\x27 the ledgers." }

/-- Demo case whose culprit is among the suspects. -/
def demoCase : Case :=
  { title := "The Leith Shore Affair", victim := "A merchant of Leith",
    location := "Leith docks",
    summary := "A merchant lies dead by the shore.",
    suspects := [jeanBrash, aileanMhor, hamishDunbar],
    culprit := "Jean Brash" }

/-- Portrait oracle whose requests all succeed. -/
def portraitOk : String → Except String String :=
  fun _ => .ok "data:image/jpeg;base64,demo"

/-- Demo case whose culprit is not among its three suspects; the shape of a
payload that the generateNewCase validation nevertheless accepts. -/
def badCase : Case :=
  { title := "The Vanishing Candlemaker", victim := "A candlemaker",
    location := "The Grassmarket",
    summary := "The candlemaker went cold in his own shop.",
    suspects := [jeanBrash, aileanMhor, hamishDunbar],
    culprit := "Dewi MacOlacost" }

/-- badCase after portrait enrichment by portraitOk. -/
def badCaseEnriched : Case :=
  { badCase with
    suspects := badCase.suspects.map
      (fun sp => { sp with portraitUrl := some "data:image/jpeg;base64,demo" }) }

/-- State produced by a begin step whose Case Generator returned badCase. -/
def badBeginState : SessionState :=
  startNewCase initialState .Easy (generateNewCase (some badCase)) portraitOk

/-- Demo state in INVESTIGATING with the demo case and its briefing entry. -/
def investigatingDemo : SessionState :=
  { gameState := .INVESTIGATING, difficulty := some .Easy,
    currentCase := some demoCase,
    timeline := [{ id := 1, type := .EVENT, source := "Case Briefing",
                   text := demoCase.summary }],
    activeEventId := some 1, currentLog := demoCase.summary,
    currentSpeaker := none, isLoading := false, loadingMessage := "",
    resolution := none, error := none, investigationInput := "" }

/-- Demo state in ACCUSING with the accusation modal open. -/
def accusingDemo : SessionState :=
  { investigatingDemo with gameState := .ACCUSING }

/-- Demo state mid-accusation: the synchronous prefix of handleAccuse has
run, so the loading flag is raised while the resolve request is
outstanding and the accusation modal is still open. -/
def busyAccusingState : SessionState :=
  { accusingDemo with
    isLoading := true,
    loadingMessage := "The net draws tight..." }

/-- C1: the required-clue threshold is a pure function of the difficulty:
for difficulty Easy, Medium, Hard and unset it equals 1, 2, 3 and 2
respectively. -/
theorem cluesNeeded_table :
    cluesNeeded (some Difficulty.Easy) = 1 ∧
    cluesNeeded (some Difficulty.Medium) = 2 ∧
    cluesNeeded (some Difficulty.Hard) = 3 ∧
    cluesNeeded none = 2 :=
  ⟨rfl, rfl, rfl, rfl⟩

/-- C2: for every case and accused suspect, resolveCase yields a Resolution
whose isCorrect flag is exactly the string equality of the accused name with
the culprit, independently of the narrative text, and on success handleAccuse
stores that resolution and moves the screen to RESOLVED. -/
theorem accuse_exact_correctness (s : SessionState) (c : Case)
    (suspect : Suspect) (text : String)
    (hc : s.currentCase = some c) :
    resolveCase c suspect.name (.ok text) =
      .ok { isCorrect := suspect.name == c.culprit, resolutionText := text } ∧
    (handleAccuse s suspect (.ok text)).resolution =
      some { isCorrect := suspect.name == c.culprit, resolutionText := text } ∧
    (handleAccuse s suspect (.ok text)).gameState = GameState.RESOLVED := by
  refine ⟨rfl, ?_, ?_⟩ <;>
    · unfold handleAccuse
      rw [hc]
      simp [resolveCase]

/-- C2 witness at the demo accusing state and the suspect Ailean Mhor. -/
theorem accuse_exact_correctness_witness :
    resolveCase demoCase aileanMhor.name (.ok "The truth outs.") =
      .ok { isCorrect := aileanMhor.name == demoCase.culprit,
            resolutionText := "The truth outs." } ∧
    (handleAccuse accusingDemo aileanMhor (.ok "The truth outs.")).resolution =
      some { isCorrect := aileanMhor.name == demoCase.culprit,
             resolutionText := "The truth outs." } ∧
    (handleAccuse accusingDemo aileanMhor (.ok "The truth outs.")).gameState =
      GameState.RESOLVED :=
  accuse_exact_correctness accusingDemo demoCase aileanMhor "The truth outs." rfl

/-- C3: after a successful begin(d) the screen is INVESTIGATING, the
evidence log is exactly the single briefing entry carrying the case summary,
the difficulty equals d, and the previous resolution and error are
cleared. -/
theorem begin_success_state (s : SessionState) (d : Difficulty) (c : Case)
    (pfn : String → Except String String) (sws : List Suspect)
    (hp : enrichSuspects pfn c.suspects = .ok sws) :
    (startNewCase s d (.ok c) pfn).gameState = GameState.INVESTIGATING ∧
    (startNewCase s d (.ok c) pfn).timeline =
      [{ id := 1, type := EventType.EVENT, source := "Case Briefing",
         text := c.summary }] ∧
    (startNewCase s d (.ok c) pfn).difficulty = some d ∧
    (startNewCase s d (.ok c) pfn).resolution = none ∧
    (startNewCase s d (.ok c) pfn).error = none := by
  simp [startNewCase, hp]

/-- C3 witness: begin(Easy) from the initial state with the demo case and an
all-successful portrait oracle. -/
theorem begin_success_state_witness :
    (startNewCase initialState Difficulty.Easy (.ok demoCase) portraitOk).gameState
      = GameState.INVESTIGATING ∧
    (startNewCase initialState Difficulty.Easy (.ok demoCase) portraitOk).timeline
      = [{ id := 1, type := EventType.EVENT, source := "Case Briefing",
           text := demoCase.summary }] ∧
    (startNewCase initialState Difficulty.Easy (.ok demoCase) portraitOk).difficulty
      = some Difficulty.Easy ∧
    (startNewCase initialState Difficulty.Easy (.ok demoCase) portraitOk).resolution
      = none ∧
    (startNewCase initialState Difficulty.Easy (.ok demoCase) portraitOk).error
      = none :=
  begin_success_state initialState Difficulty.Easy demoCase portraitOk
    (demoCase.suspects.map
      (fun sp => { sp with portraitUrl := some "data:image/jpeg;base64,demo" }))
    (by rfl)

/-- C4: in every reachable session state, the openAccusation intent is a
no-op whenever the number of investigation-clue and companion-hint entries
in the evidence log is strictly below the required-clue threshold of the
stored difficulty; briefing entries, being EVENT entries, are not in that
count. -/
theorem openAccusation_noop_below_threshold (s : SessionState)
    (hreach : Reachable s)
    (hbelow : clueHintCount s < cluesNeeded s.difficulty) :
    openAccusation s = s := by
  have ht : timelineOk s := (reachable_invariant hreach).1
  have hcount : cluesFound s = clueHintCount s :=
    cluesFound_eq_clueHintCount s ht
  have hca : canAccuse s = false := by
    unfold canAccuse
    rw [hcount]
    exact decide_eq_false (by omega)
  unfold openAccusation
  simp [hca]

/-- C4 witness: the initial state is reachable, has no clue or hint entries,
and openAccusation leaves it unchanged. -/
theorem openAccusation_noop_below_threshold_witness :
    openAccusation initialState = initialState :=
  openAccusation_noop_below_threshold initialState Reachable.init (by decide)

/-- C5 counterexample: in a busy state (the resolve request of an accusation
is still outstanding) a further accuse call is not ignored: it changes the
session state. -/
theorem accuse_not_busy_guarded :
    busyAccusingState.isLoading = true ∧
    handleAccuse busyAccusingState jeanBrash (.ok "The truth outs.")
      ≠ busyAccusingState := by
  refine ⟨rfl, fun h => ?_⟩
  have hgs := congrArg SessionState.gameState h
  simp [handleAccuse, resolveCase, busyAccusingState, accusingDemo,
    investigatingDemo] at hgs

/-- C5 (amended): while a request to the Case Generator is outstanding, the
investigate intent (whose handler checks the busy flag) and the askCompanion
intent (whose button is disabled while busy) are without effect; the accuse
and begin handlers perform no busy check, so a call reaching them while busy
does take effect. -/
theorem busy_guard_investigate_askInnis (s : SessionState)
    (r : Except String InvestigationResult) (r2 : Except String HintResult)
    (hbusy : s.isLoading = true) :
    handleInvestigationSubmit s r = s ∧ askInnisClick s r2 = s := by
  constructor
  · unfold handleInvestigationSubmit
    simp [hbusy]
  · unfold askInnisClick
    simp [hbusy]

/-- C5 witness: in the busy demo state, an investigate submission and an
askCompanion click are both without effect. -/
theorem busy_guard_investigate_askInnis_witness :
    handleInvestigationSubmit busyAccusingState
      (.ok { description := "d", clue := "c" }) = busyAccusingState ∧
    askInnisClick busyAccusingState (.ok { hint := "h" }) = busyAccusingState :=
  busy_guard_investigate_askInnis busyAccusingState
    (.ok { description := "d", clue := "c" }) (.ok { hint := "h" }) rfl

/-- Frame condition holding after a failed Case Generator request: the error
message is recorded, the loading flag is cleared, and the screen and the
evidence log are those of the pre-call state. -/
def errorFrame (s2 s : SessionState) (msg : String) : Prop :=
  s2.error = some msg ∧ s2.isLoading = false ∧
  s2.gameState = s.gameState ∧ s2.timeline = s.timeline

/-- C6: for each of the four operations backed by a Case Generator request
(begin, investigate, askCompanion, accuse), a failed request records the
error message, clears the busy flag, keeps the screen unchanged and leaves
the evidence log unchanged. -/
theorem failed_request_frame (s : SessionState) (msg : String)
    (d : Difficulty) (pfn : String → Except String String) (action : String)
    (suspect : Suspect) (c : Case) (d0 : Difficulty)
    (hc : s.currentCase = some c) (hd : s.difficulty = some d0) :
    errorFrame (startNewCase s d (.error msg) pfn) s msg ∧
    errorFrame (handleInvestigation s action (.error msg)) s msg ∧
    errorFrame (handleAskInnis s (.error msg)) s msg ∧
    errorFrame (handleAccuse s suspect (.error msg)) s msg := by
  refine ⟨⟨rfl, rfl, rfl, rfl⟩, ?_, ?_, ?_⟩
  · unfold handleInvestigation
    rw [hc, hd]
    exact ⟨rfl, rfl, rfl, rfl⟩
  · unfold handleAskInnis
    rw [hc, hd]
    exact ⟨rfl, rfl, rfl, rfl⟩
  · unfold handleAccuse
    rw [hc]
    simp [resolveCase, errorFrame, handleApiError]

/-- C6 witness at the demo investigating state. -/
theorem failed_request_frame_witness :
    errorFrame (startNewCase investigatingDemo Difficulty.Easy
      (.error "The fog is too thick.") portraitOk) investigatingDemo
      "The fog is too thick." ∧
    errorFrame (handleInvestigation investigatingDemo "Scour the scene"
      (.error "The fog is too thick.")) investigatingDemo
      "The fog is too thick." ∧
    errorFrame (handleAskInnis investigatingDemo
      (.error "The fog is too thick.")) investigatingDemo
      "The fog is too thick." ∧
    errorFrame (handleAccuse investigatingDemo jeanBrash
      (.error "The fog is too thick.")) investigatingDemo
      "The fog is too thick." :=
  failed_request_frame investigatingDemo "The fog is too thick."
    Difficulty.Easy portraitOk "Scour the scene" jeanBrash demoCase
    Difficulty.Easy rfl rfl

/-- C7 counterexample: a payload with exactly three suspects whose culprit
is not among the suspect names passes the generateNewCase validation and
becomes the active Case of a reachable state, so culprit membership is not
part of the enforced invariant. -/
theorem culprit_membership_not_enforced :
    generateNewCase (some badCase) = .ok badCase ∧
    badCase.culprit ∉ badCase.suspects.map Suspect.name ∧
    Reachable badBeginState ∧
    badBeginState.currentCase = some badCaseEnriched ∧
    badCaseEnriched.culprit ∉ badCaseEnriched.suspects.map Suspect.name := by
  refine ⟨rfl, by decide, ?_, rfl, by decide⟩
  exact Reachable.beginCase initialState .Easy (some badCase) portraitOk
    Reachable.init

/-- C7 (amended): every Case active in a reachable session state has exactly
three suspects; generateNewCase fails with the generation error whenever the
payload cannot be parsed or does not contain exactly three suspects, so such
a payload never becomes the active Case. Membership of the culprit name in
the suspect name set is not validated. -/
theorem case_validation (s : SessionState) (parsed : Option Case)
    (hreach : Reachable s) :
    (∀ c, s.currentCase = some c → c.suspects.length = 3) ∧
    (∀ c, generateNewCase parsed = .ok c → c.suspects.length = 3) ∧
    (parsed = none → generateNewCase parsed = .error generationErrorMsg) ∧
    (∀ c, parsed = some c → c.suspects.length ≠ 3 →
      generateNewCase parsed = .error generationErrorMsg) := by
  refine ⟨(reachable_invariant hreach).2, ?_, ?_, ?_⟩
  · intro c hok
    cases parsed with
    | none => cases hok
    | some c0 =>
        have hok2 : (if c0.suspects.length ≠ 3 then
            (Except.error generationErrorMsg : Except String Case)
            else Except.ok c0) = Except.ok c := hok
        by_cases hlen : c0.suspects.length ≠ 3
        · rw [if_pos hlen] at hok2
          cases hok2
        · rw [if_neg hlen] at hok2
          cases hok2
          omega
  · intro hnone
    subst hnone
    rfl
  · intro c hsome hlen
    subst hsome
    show (if c.suspects.length ≠ 3 then
        (Except.error generationErrorMsg : Except String Case)
        else Except.ok c) = Except.error generationErrorMsg
    rw [if_pos hlen]

/-- C7 witness: an unparseable payload is rejected, in the initial reachable
state. -/
theorem case_validation_witness :
    generateNewCase (none : Option Case) = .error generationErrorMsg :=
  (case_validation initialState none Reachable.init).2.2.1 rfl

/-- C8: resetGame yields, from every session state, a state on the START
screen with an empty evidence log, no Case, no Resolution, no error and no
difficulty. -/
theorem resetGame_clears (s : SessionState) :
    (resetGame s).gameState = GameState.START ∧
    (resetGame s).timeline = [] ∧
    (resetGame s).currentCase = none ∧
    (resetGame s).resolution = none ∧
    (resetGame s).error = none ∧
    (resetGame s).difficulty = none :=
  ⟨rfl, rfl, rfl, rfl, rfl, rfl⟩

/-- C9: cancelAccusation called in ACCUSING returns the screen to
INVESTIGATING and changes no other field of the session state, and calling
it when the screen is already INVESTIGATING leaves the whole state
unchanged. -/
theorem cancelAccusation_behaviour (s : SessionState) :
    (s.gameState = GameState.ACCUSING →
      (cancelAccusation s).gameState = GameState.INVESTIGATING ∧
      (cancelAccusation s).difficulty = s.difficulty ∧
      (cancelAccusation s).currentCase = s.currentCase ∧
      (cancelAccusation s).timeline = s.timeline ∧
      (cancelAccusation s).activeEventId = s.activeEventId ∧
      (cancelAccusation s).currentLog = s.currentLog ∧
      (cancelAccusation s).currentSpeaker = s.currentSpeaker ∧
      (cancelAccusation s).isLoading = s.isLoading ∧
      (cancelAccusation s).loadingMessage = s.loadingMessage ∧
      (cancelAccusation s).resolution = s.resolution ∧
      (cancelAccusation s).error = s.error ∧
      (cancelAccusation s).investigationInput = s.investigationInput) ∧
    (s.gameState = GameState.INVESTIGATING → cancelAccusation s = s) := by
  constructor
  · intro _
    exact ⟨rfl, rfl, rfl, rfl, rfl, rfl, rfl, rfl, rfl, rfl, rfl, rfl⟩
  · intro h
    cases s
    simp_all [cancelAccusation]

/-- C9 witness: cancelAccusation at the demo accusing and the demo
investigating state. -/
theorem cancelAccusation_behaviour_witness :
    (cancelAccusation accusingDemo).gameState = GameState.INVESTIGATING ∧
    cancelAccusation investigatingDemo = investigatingDemo :=
  ⟨((cancelAccusation_behaviour accusingDemo).1 rfl).1,
   (cancelAccusation_behaviour investigatingDemo).2 rfl⟩

/-- C10: when begin(d) fails, the session stays on START with no Case and no
evidence, but the difficulty, stored before the request was issued, is left
equal to d and is not rolled back, so it differs from the pre-call value. -/
theorem begin_failure_retains_difficulty (s : SessionState) (d : Difficulty)
    (msg : String) (pfn : String → Except String String)
    (hstart : s.gameState = GameState.START)
    (hcase : s.currentCase = none)
    (htl : s.timeline = [])
    (hdiff : s.difficulty = none) :
    (startNewCase s d (.error msg) pfn).gameState = GameState.START ∧
    (startNewCase s d (.error msg) pfn).currentCase = none ∧
    (startNewCase s d (.error msg) pfn).timeline = [] ∧
    (startNewCase s d (.error msg) pfn).difficulty = some d ∧
    (startNewCase s d (.error msg) pfn).difficulty ≠ s.difficulty := by
  refine ⟨?_, ?_, ?_, rfl, ?_⟩
  · exact hstart
  · exact hcase
  · exact htl
  · show some d ≠ s.difficulty
    rw [hdiff]
    exact Option.some_ne_none d

/-- C10 witness: a failed begin(Medium) from the initial state. -/
theorem begin_failure_retains_difficulty_witness :
    (startNewCase initialState Difficulty.Medium
      (.error generationErrorMsg) portraitOk).gameState = GameState.START ∧
    (startNewCase initialState Difficulty.Medium
      (.error generationErrorMsg) portraitOk).currentCase = none ∧
    (startNewCase initialState Difficulty.Medium
      (.error generationErrorMsg) portraitOk).timeline = [] ∧
    (startNewCase initialState Difficulty.Medium
      (.error generationErrorMsg) portraitOk).difficulty =
        some Difficulty.Medium ∧
    (startNewCase initialState Difficulty.Medium
      (.error generationErrorMsg) portraitOk).difficulty ≠
        initialState.difficulty :=
  begin_failure_retains_difficulty initialState Difficulty.Medium
    generationErrorMsg portraitOk rfl rfl rfl rfl

end McLevy
